import Mathlib

/-!
Shallow embedding of `src/common/d3d12/texture.cpp` (D3D12::Texture).

The texture object's fields mirror the C++ members.  External collaborators
(device, descriptor heaps, upload ring buffer, staging-texture primitive,
command list) are modelled as an oracle structure `Ctx` giving the outcome of
each external call a single texture operation can make, together with an
event trace recording every externally visible call the operation performs.
Machine integers are modelled as `Nat` with explicit `% 2^w` truncation where
the C++ code performs 32/16/8-bit arithmetic or narrowing casts.
-/

namespace D3D12

/-- `GPUTexture::Format` — the logical base pixel formats, in the order of
`s_dxgi_mapping` (texture.cpp line 11). -/
inductive Format where
  | unknown
  | rgba8
  | bgra8
  | rgb565
  | rgba5551
  | r8
  | d16
deriving DecidableEq, Repr

/-- The DXGI formats appearing in `s_dxgi_mapping`. -/
inductive DXGIFormat where
  | fmtUnknown
  | fmtR8G8B8A8
  | fmtB8G8R8A8
  | fmtB5G6R5
  | fmtB5G5R5A1
  | fmtR8
  | fmtD16
deriving DecidableEq, Repr

/-- `s_dxgi_mapping` as an indexed array over `Format` (`GetDXGIFormat`). -/
def GetDXGIFormat : Format → DXGIFormat
  | .unknown => .fmtUnknown
  | .rgba8 => .fmtR8G8B8A8
  | .bgra8 => .fmtB8G8R8A8
  | .rgb565 => .fmtB5G6R5
  | .rgba5551 => .fmtB5G5R5A1
  | .r8 => .fmtR8
  | .d16 => .fmtD16

/-- The index order of `s_dxgi_mapping`. -/
def formatOrder : List Format :=
  [.unknown, .rgba8, .bgra8, .rgb565, .rgba5551, .r8, .d16]

/-- `LookupBaseFormat` (texture.cpp lines 49-57): linear search of
`s_dxgi_mapping` for the first index mapped to `dformat`, `Unknown` when no
entry matches. -/
def LookupBaseFormat (dformat : DXGIFormat) : Format :=
  match formatOrder.find? (fun f => GetDXGIFormat f = dformat) with
  | some f => f
  | none => .unknown

/-- Modelled from the spec: `GPUTexture::GetPixelSize` lives in the missing
header `gpu_texture.h`; the spec (§3, §4.2) says the source row width in
bytes is `width × bytes-per-pixel` of the base format.  Byte sizes follow the
DXGI encodings of `s_dxgi_mapping` (4-byte RGBA8/BGRA8, 2-byte 16-bit
formats, 1-byte R8). -/
def GetPixelSize : Format → Nat
  | .unknown => 0
  | .rgba8 => 4
  | .bgra8 => 4
  | .rgb565 => 2
  | .rgba5551 => 2
  | .r8 => 1
  | .d16 => 2

/-- `D3D12_RESOURCE_STATES` values used by texture.cpp. -/
inductive ResourceState where
  | common
  | renderTarget
  | depthWrite
  | pixelShaderResource
  | copyDest
deriving DecidableEq, Repr

/-- The three descriptor heap managers of the context. -/
inductive Heap where
  | srvHeap
  | rtvHeap
  | dsvHeap
deriving DecidableEq, Repr

/-- The `D3D12::Texture` object.  A descriptor handle is `Option Nat`
(`none` = the cleared handle `{}`); the owned resource is `Option Nat`
(`none` = null `ComPtr`). -/
structure Texture where
  m_resource : Option Nat
  m_srv_descriptor : Option Nat
  m_rtv_or_dsv_descriptor : Option Nat
  m_width : Nat
  m_height : Nat
  m_layers : Nat
  m_levels : Nat
  m_samples : Nat
  m_format : Format
  m_state : ResourceState
  m_is_depth_view : Bool
deriving DecidableEq, Repr

/-- Modelled from the spec: the member defaults of `D3D12::Texture` /
`GPUTexture` live in the missing headers; the spec (§3) gives the canonical
empty state: null resource, no descriptors, zero dimensions, default
(common) usage-state, and the depth-view flag clear. -/
def emptyTexture : Texture :=
  { m_resource := none
    m_srv_descriptor := none
    m_rtv_or_dsv_descriptor := none
    m_width := 0
    m_height := 0
    m_layers := 0
    m_levels := 0
    m_samples := 0
    m_format := .unknown
    m_state := .common
    m_is_depth_view := false }

/-- Modelled from the spec: `GPUTexture::ClearBaseProperties` is in the
missing header; per spec §3 the canonical empty state has zero dimensions
and no logical format, so it zeroes the base attributes. -/
def ClearBaseProperties (tex : Texture) : Texture :=
  { tex with
    m_width := 0
    m_height := 0
    m_layers := 0
    m_levels := 0
    m_samples := 0
    m_format := .unknown }

/-- `IsValid` (texture.cpp lines 93-96). -/
def IsValid (tex : Texture) : Bool :=
  tex.m_resource.isSome

/-- One externally visible call made by a texture operation. -/
inductive Event where
  | allocDescriptor (heap : Heap) (result : Option Nat)
  | freeDescriptor (heap : Heap) (handle : Option Nat)
  | deferDescriptorDestruction (heap : Heap) (handle : Option Nat)
  | deferResourceDestruction (resource : Option Nat)
  | barrier (source target : ResourceState)
  | copyTextureRegion (x y width height : Nat)
  | executeCommandList (wait : Bool)
  | reserveMemory (size align : Nat) (ok : Bool)
  | commitMemory (size : Nat)
  | stagingCreate (ok : Bool)
  | stagingWritePixels (ok : Bool)
  | stagingCopyToTexture (x y width height : Nat)
  | stagingDestroy (deferred : Bool)
deriving DecidableEq, Repr

/-- Oracle for the external collaborators: the outcome each external call
would produce during one texture operation.  A texture operation makes at
most one committed-resource allocation, at most one allocation per
descriptor heap, at most two ring-buffer reservations, and at most one
staging create/write, so one field per outcome suffices. -/
structure Ctx where
  createResourceResult : Option Nat
  srvAllocResult : Option Nat
  rtvAllocResult : Option Nat
  dsvAllocResult : Option Nat
  streamBufferSize : Nat
  streamBufferOffset : Nat
  reserveFirst : Bool
  reserveSecond : Bool
  stagingCreateOk : Bool
  stagingWriteOk : Bool
deriving DecidableEq, Repr

/-- `CreateSRVDescriptor` (texture.cpp lines 385-402): allocate from the
shader-visible descriptor heap; the view-description fill and device call
have no modelled effect. -/
def CreateSRVDescriptor (ctx : Ctx) : Option Nat × List Event :=
  match ctx.srvAllocResult with
  | none => (none, [.allocDescriptor .srvHeap none])
  | some id => (some id, [.allocDescriptor .srvHeap (some id)])

/-- `CreateRTVDescriptor` (texture.cpp lines 404-418). -/
def CreateRTVDescriptor (ctx : Ctx) : Option Nat × List Event :=
  match ctx.rtvAllocResult with
  | none => (none, [.allocDescriptor .rtvHeap none])
  | some id => (some id, [.allocDescriptor .rtvHeap (some id)])

/-- `CreateDSVDescriptor` (texture.cpp lines 420-434). -/
def CreateDSVDescriptor (ctx : Ctx) : Option Nat × List Event :=
  match ctx.dsvAllocResult with
  | none => (none, [.allocDescriptor .dsvHeap none])
  | some id => (some id, [.allocDescriptor .dsvHeap (some id)])

/-- `Destroy` (texture.cpp lines 240-265).  Deferred: both descriptors and
the resource are handed to the retirement queue; immediate: the descriptors
are freed back to their pools and the resource handle reset.  In both cases
the base properties are cleared and the depth-view flag reset; the tracked
usage-state member is not touched by `Destroy`. -/
def Destroy (tex : Texture) (defer : Bool) : Texture × List Event :=
  let evs :=
    if defer then
      [Event.deferDescriptorDestruction .srvHeap tex.m_srv_descriptor,
       Event.deferDescriptorDestruction (if tex.m_is_depth_view then .dsvHeap else .rtvHeap)
         tex.m_rtv_or_dsv_descriptor,
       Event.deferResourceDestruction tex.m_resource]
    else
      [Event.freeDescriptor .srvHeap tex.m_srv_descriptor,
       Event.freeDescriptor (if tex.m_is_depth_view then .dsvHeap else .rtvHeap)
         tex.m_rtv_or_dsv_descriptor]
  ({ ClearBaseProperties tex with
      m_resource := none
      m_srv_descriptor := none
      m_rtv_or_dsv_descriptor := none
      m_is_depth_view := false },
   evs)

/-- `TransitionToState` (texture.cpp lines 267-274): no-op when the tracked
state already equals the target; otherwise record one resource barrier and
update the tracked state. -/
def TransitionToState (tex : Texture) (state : ResourceState) : Texture × List Event :=
  if tex.m_state = state then (tex, [])
  else ({ tex with m_state := state }, [.barrier tex.m_state state])

/-- Modelled from the spec: the dimension maxima `MAX_WIDTH` etc. live in the
missing header; the spec (§3) bounds width/height by a fixed maximum
(e.g. 65535) and the counts by small integers, and the code narrows width
and height to 16 bits and the counts to 8 bits, so the maxima are the
largest representable values. -/
def MAX_WIDTH : Nat := 65535

/-- Modelled from the spec: see `MAX_WIDTH`. -/
def MAX_HEIGHT : Nat := 65535

/-- Modelled from the spec: see `MAX_WIDTH`. -/
def MAX_LAYERS : Nat := 255

/-- Modelled from the spec: see `MAX_WIDTH`. -/
def MAX_LEVELS : Nat := 255

/-- Modelled from the spec: see `MAX_WIDTH`. -/
def MAX_SAMPLES : Nat := 255

/-- 2^32, the modulus of the `u32` arithmetic in the upload-size
computations. -/
def U32M : Nat := 4294967296

/-- `D3D12_TEXTURE_DATA_PITCH_ALIGNMENT` (D3D12 API constant). -/
def PITCH_ALIGNMENT : Nat := 256

/-- `D3D12_TEXTURE_DATA_PLACEMENT_ALIGNMENT` (D3D12 API constant). -/
def PLACEMENT_ALIGNMENT : Nat := 512

/-- `Common::AlignUpPow2(value, alignment)` on a `u32` value: the C++
computes `(value + (alignment - 1)) & ~(alignment - 1)` in 32-bit
arithmetic; for a power-of-two `alignment` dividing 2^32 this equals
rounding `value mod 2^32` up to a multiple of `alignment` and reducing
mod 2^32, which is the form used here. -/
def AlignUpPow2 (value alignment : Nat) : Nat :=
  ((value % U32M + (alignment - 1)) / alignment) * alignment % U32M

/-- `Create` (texture.cpp lines 98-191).  Returns
(result, texture afterwards, event trace). -/
def Create (ctx : Ctx) (tex : Texture) (width height layers levels samples : Nat)
    (format srv_format rtv_format dsv_format : DXGIFormat) : Bool × Texture × List Event :=
  if width > MAX_WIDTH ∨ height > MAX_HEIGHT ∨ layers > MAX_LAYERS ∨ levels > MAX_LEVELS ∨
      samples > MAX_SAMPLES then
    (false, tex, [])
  else
    let state :=
      if rtv_format ≠ .fmtUnknown then ResourceState.renderTarget
      else if dsv_format ≠ .fmtUnknown then ResourceState.depthWrite
      else ResourceState.pixelShaderResource
    match ctx.createResourceResult with
    | none => (false, tex, [])
    | some resId =>
      let srvStep :=
        if srv_format = DXGIFormat.fmtUnknown then (some none, ([] : List Event))
        else
          match CreateSRVDescriptor ctx with
          | (none, evs) => (none, evs)
          | (some id, evs) => (some (some id), evs)
      match srvStep with
      | (none, ev1) => (false, tex, ev1)
      | (some srv_descriptor, ev1) =>
        let finish := fun (rtv_descriptor : Option Nat) (is_depth_view : Bool)
            (ev2 : List Event) =>
          let destroyed := Destroy tex true
          (true,
           { destroyed.1 with
              m_resource := some resId
              m_srv_descriptor := srv_descriptor
              m_rtv_or_dsv_descriptor := rtv_descriptor
              m_width := width % 65536
              m_height := height % 65536
              m_layers := layers % 256
              m_levels := levels % 256
              m_samples := samples % 256
              m_format := LookupBaseFormat format
              m_state := state
              m_is_depth_view := is_depth_view },
           ev1 ++ ev2 ++ destroyed.2)
        if rtv_format ≠ DXGIFormat.fmtUnknown then
          match CreateRTVDescriptor ctx with
          | (none, ev2) =>
            (false, tex, ev1 ++ ev2 ++ [.freeDescriptor .srvHeap srv_descriptor])
          | (some rtvId, ev2) => finish (some rtvId) false ev2
        else if dsv_format ≠ DXGIFormat.fmtUnknown then
          match CreateDSVDescriptor ctx with
          | (none, ev2) =>
            (false, tex, ev1 ++ ev2 ++ [.freeDescriptor .srvHeap srv_descriptor])
          | (some dsvId, ev2) => finish (some dsvId) true ev2
        else
          finish none false []

/-- The `D3D12_RESOURCE_DESC` read back from an adopted resource
(`texture->GetDesc()`). -/
structure ResourceDesc where
  width : Nat
  height : Nat
  layers : Nat
  levels : Nat
  samples : Nat
  format : DXGIFormat
deriving DecidableEq, Repr

/-- `Adopt` (texture.cpp lines 193-238).  Wraps a caller-owned resource
`resId` whose description reads back as `desc`.  Note the code clears
`m_is_depth_view` after the sampled-view step but before attempting the
render-target/depth view. -/
def Adopt (ctx : Ctx) (tex : Texture) (resId : Nat) (desc : ResourceDesc)
    (srv_format rtv_format dsv_format : DXGIFormat) (state : ResourceState) :
    Bool × Texture × List Event :=
  let srvStep :=
    if srv_format = DXGIFormat.fmtUnknown then (some none, ([] : List Event))
    else
      match CreateSRVDescriptor ctx with
      | (none, evs) => (none, evs)
      | (some id, evs) => (some (some id), evs)
  match srvStep with
  | (none, ev1) => (false, tex, ev1)
  | (some srv_descriptor, ev1) =>
    let tex0 := { tex with m_is_depth_view := false }
    let finish := fun (tex1 : Texture) (rtv_descriptor : Option Nat) (ev2 : List Event) =>
      (true,
       { tex1 with
          m_resource := some resId
          m_srv_descriptor := srv_descriptor
          m_rtv_or_dsv_descriptor := rtv_descriptor
          m_width := desc.width % 65536
          m_height := desc.height % 65536
          m_layers := desc.layers % 256
          m_levels := desc.levels % 256
          m_samples := desc.samples % 256
          m_format := LookupBaseFormat desc.format
          m_state := state },
       ev1 ++ ev2)
    if rtv_format ≠ DXGIFormat.fmtUnknown then
      match CreateRTVDescriptor ctx with
      | (none, ev2) =>
        (false, tex0, ev1 ++ ev2 ++ [.freeDescriptor .srvHeap srv_descriptor])
      | (some rtvId, ev2) => finish tex0 (some rtvId) ev2
    else if dsv_format ≠ DXGIFormat.fmtUnknown then
      match CreateDSVDescriptor ctx with
      | (none, ev2) =>
        (false, tex0, ev1 ++ ev2 ++ [.freeDescriptor .srvHeap srv_descriptor])
      | (some dsvId, ev2) => finish { tex0 with m_is_depth_view := true } (some dsvId) ev2
    else
      finish tex0 none []

/-- `CopyFromBuffer` (texture.cpp lines 310-334): transition to the
copy-destination state, record the buffer-to-texture copy over the
destination rectangle, transition back to the prior state. -/
def CopyFromBuffer (tex : Texture) (x y width height _pitch _buffer_offset : Nat) :
    Texture × List Event :=
  let old_state := tex.m_state
  let step1 := TransitionToState tex .copyDest
  let step2 := TransitionToState step1.1 old_state
  (step2.1, step1.2 ++ [.copyTextureRegion x y width height] ++ step2.2)

/-- `BeginStreamUpdate` (texture.cpp lines 276-296): reserve the upload size
in the ring buffer; on failure submit the command list and retry once with
the same size and alignment.  Returns (result, out data pitch, trace). -/
def BeginStreamUpdate (ctx : Ctx) (tex : Texture) (_x _y width height : Nat) :
    Bool × Nat × List Event :=
  let copy_pitch := AlignUpPow2 (width * GetPixelSize tex.m_format) PITCH_ALIGNMENT
  let upload_size := copy_pitch * height % U32M
  if ctx.reserveFirst then
    (true, copy_pitch, [.reserveMemory upload_size PLACEMENT_ALIGNMENT true])
  else if ctx.reserveSecond then
    (true, copy_pitch,
     [.reserveMemory upload_size PLACEMENT_ALIGNMENT false, .executeCommandList false,
      .reserveMemory upload_size PLACEMENT_ALIGNMENT true])
  else
    (false, copy_pitch,
     [.reserveMemory upload_size PLACEMENT_ALIGNMENT false, .executeCommandList false,
      .reserveMemory upload_size PLACEMENT_ALIGNMENT false])

/-- `EndStreamUpdate` (texture.cpp lines 298-308): commit the reserved bytes
and record the buffer-to-texture copy. -/
def EndStreamUpdate (ctx : Ctx) (tex : Texture) (x y width height : Nat) :
    Texture × List Event :=
  let copy_pitch := AlignUpPow2 (width * GetPixelSize tex.m_format) PITCH_ALIGNMENT
  let upload_size := copy_pitch * height % U32M
  let copied := CopyFromBuffer tex x y width height copy_pitch ctx.streamBufferOffset
  (copied.1, [.commitMemory upload_size] ++ copied.2)

/-- `LoadData` (texture.cpp lines 336-363): route to the Staging sub-path
when the computed upload size is at or above the ring buffer's size,
otherwise to the Streaming sub-path.  The host-memory row copy
(`CopyToUploadBuffer` / `WritePixels`) is modelled separately on memories;
here only its success or failure enters the trace. -/
def LoadData (ctx : Ctx) (tex : Texture) (x y width height _pitch : Nat) :
    Bool × Texture × List Event :=
  let texel_size := GetPixelSize tex.m_format
  let upload_pitch := AlignUpPow2 (width * texel_size) PITCH_ALIGNMENT
  let upload_size := upload_pitch * height % U32M
  if upload_size ≥ ctx.streamBufferSize then
    if ¬ ctx.stagingCreateOk then (false, tex, [.stagingCreate false])
    else if ¬ ctx.stagingWriteOk then
      (false, tex, [.stagingCreate true, .stagingWritePixels false])
    else
      let old_state := tex.m_state
      let step1 := TransitionToState tex .copyDest
      let step2 := TransitionToState step1.1 old_state
      (true, step2.1,
       [.stagingCreate true, .stagingWritePixels true] ++ step1.2 ++
        [.stagingCopyToTexture x y width height, .stagingDestroy true] ++ step2.2)
  else
    match BeginStreamUpdate ctx tex x y width height with
    | (false, _, ev) => (false, tex, ev)
    | (true, _, ev) =>
      let ended := EndStreamUpdate ctx tex x y width height
      (true, ended.1, ev ++ ended.2)

/-- `std::memcpy(dst + dstOff, src + srcOff, n)` on byte memories modelled
as functions from addresses to byte values. -/
def memcpyBytes (dst : Nat → Nat) (dstOff : Nat) (src : Nat → Nat) (srcOff n : Nat) :
    Nat → Nat :=
  fun i => if dstOff ≤ i ∧ i < dstOff + n then src (srcOff + (i - dstOff)) else dst i

/-- The row loop of `CopyToUploadBuffer` (texture.cpp lines 376-381): copy
`copy_size` bytes per row, advancing each pointer by its own pitch. -/
def copyRowsLoop (src : Nat → Nat) (src_pitch dst_pitch copy_size : Nat) :
    Nat → Nat → (Nat → Nat) → Nat → (Nat → Nat)
  | _, _, dst, 0 => dst
  | srcOff, dstOff, dst, h + 1 =>
    copyRowsLoop src src_pitch dst_pitch copy_size (srcOff + src_pitch) (dstOff + dst_pitch)
      (memcpyBytes dst dstOff src srcOff copy_size) h

/-- `CopyToUploadBuffer` (texture.cpp lines 365-383): one bulk copy when the
pitches match, otherwise `min(src_pitch, dst_pitch)` bytes per row.  The
bulk-copy length `dst_pitch * height` is computed in `u32` by the C++, so
it wraps mod 2^32. -/
def CopyToUploadBuffer (src : Nat → Nat) (src_pitch height : Nat) (dst : Nat → Nat)
    (dst_pitch : Nat) : Nat → Nat :=
  if src_pitch = dst_pitch then memcpyBytes dst 0 src 0 (dst_pitch * height % U32M)
  else copyRowsLoop src src_pitch dst_pitch (min src_pitch dst_pitch) 0 0 dst height

/-- `Texture(Texture&&)` (texture.cpp lines 28-42): returns (the newly
constructed object, the moved-from source).  The new object's tracked state
and base format are not copied and stay at their member defaults. -/
def moveConstruct (src : Texture) : Texture × Texture :=
  ({ m_resource := src.m_resource
     m_srv_descriptor := src.m_srv_descriptor
     m_rtv_or_dsv_descriptor := src.m_rtv_or_dsv_descriptor
     m_width := src.m_width
     m_height := src.m_height
     m_layers := src.m_layers
     m_levels := src.m_levels
     m_samples := src.m_samples
     m_format := .unknown
     m_state := .common
     m_is_depth_view := src.m_is_depth_view },
   { ClearBaseProperties src with
      m_resource := none
      m_srv_descriptor := none
      m_rtv_or_dsv_descriptor := none
      m_state := .common
      m_is_depth_view := false })

/-- `operator=(Texture&&)` (texture.cpp lines 64-86): destroy the current
contents (deferred), take the source's fields including the tracked state
(the base format member is not reassigned after `Destroy` cleared it), and
clear the source.  Returns (assigned-to object, moved-from source, trace of
the initial destroy). -/
def moveAssign (dst src : Texture) : Texture × Texture × List Event :=
  let destroyed := Destroy dst true
  ({ destroyed.1 with
      m_resource := src.m_resource
      m_srv_descriptor := src.m_srv_descriptor
      m_rtv_or_dsv_descriptor := src.m_rtv_or_dsv_descriptor
      m_width := src.m_width
      m_height := src.m_height
      m_layers := src.m_layers
      m_levels := src.m_levels
      m_samples := src.m_samples
      m_state := src.m_state
      m_is_depth_view := src.m_is_depth_view },
   { ClearBaseProperties src with
      m_resource := none
      m_srv_descriptor := none
      m_rtv_or_dsv_descriptor := none
      m_state := .common
      m_is_depth_view := false },
   destroyed.2)

/-! ### Helper lemmas -/

/-- `CopyFromBuffer` returns the texture it was given: the transition to the
copy-destination state is undone by the transition back to the prior
state. -/
lemma copyFromBuffer_texture (tex : Texture) (x y width height pitch offset : Nat) :
    (CopyFromBuffer tex x y width height pitch offset).1 = tex := by
  by_cases hs : tex.m_state = ResourceState.copyDest
  · simp [CopyFromBuffer, TransitionToState, hs]
  · simp [CopyFromBuffer, TransitionToState, hs, Ne.symm hs]

/-- `LoadData` returns the texture it was given, on every path. -/
lemma loadData_result_texture (ctx : Ctx) (tex : Texture) (x y width height pitch : Nat) :
    (LoadData ctx tex x y width height pitch).2.1 = tex := by
  by_cases hroute : ctx.streamBufferSize ≤
      AlignUpPow2 (width * GetPixelSize tex.m_format) PITCH_ALIGNMENT * height % U32M
  · by_cases hc : ctx.stagingCreateOk
    · by_cases hw : ctx.stagingWriteOk
      · by_cases hs : tex.m_state = ResourceState.copyDest
        · simp [LoadData, TransitionToState, hroute, hc, hw, hs]
        · simp [LoadData, TransitionToState, hroute, hc, hw, hs, Ne.symm hs]
      · simp [LoadData, hroute, hc, hw]
    · simp [LoadData, hroute, hc]
  · by_cases h1 : ctx.reserveFirst
    · simp [LoadData, BeginStreamUpdate, EndStreamUpdate, hroute, h1,
        copyFromBuffer_texture]
    · by_cases h2 : ctx.reserveSecond
      · simp [LoadData, BeginStreamUpdate, EndStreamUpdate, hroute, h1, h2,
          copyFromBuffer_texture]
      · simp [LoadData, BeginStreamUpdate, hroute, h1, h2]

/-- Addresses a run of `copyRowsLoop` never writes are returned unchanged:
every address outside the `copy_size`-byte window of each of the `h` rows
still holds the destination's original byte. -/
lemma copyRowsLoop_untouched (src : Nat → Nat) (sp dp cs : Nat) (h : Nat) :
    ∀ (srcOff dstOff : Nat) (dst : Nat → Nat) (i : Nat),
      (∀ r, r < h → ¬(dstOff + r * dp ≤ i ∧ i < dstOff + r * dp + cs)) →
      copyRowsLoop src sp dp cs srcOff dstOff dst h i = dst i := by
  induction h with
  | zero =>
    intro srcOff dstOff dst i _
    rfl
  | succ n ih =>
    intro srcOff dstOff dst i hcond
    have hcond' : ∀ r, r < n →
        ¬(dstOff + dp + r * dp ≤ i ∧ i < dstOff + dp + r * dp + cs) := by
      intro r hr hcontra
      have hc := hcond (r + 1) (by omega)
      have hm : (r + 1) * dp = r * dp + dp := Nat.succ_mul r dp
      exact hc ⟨by omega, by omega⟩
    have h0 := hcond 0 (Nat.succ_pos n)
    simp only [Nat.zero_mul, Nat.add_zero] at h0
    simp only [copyRowsLoop]
    rw [ih (srcOff + sp) (dstOff + dp) (memcpyBytes dst dstOff src srcOff cs) i hcond']
    simp only [memcpyBytes]
    exact if_neg h0

/-- Each of the `h` rows of `copyRowsLoop` receives the corresponding
`copy_size` source bytes, each pointer advanced by its own pitch
(needs `copy_size ≤ dst_pitch` so later rows do not overwrite earlier
ones, which holds at the call site where `copy_size` is the minimum). -/
lemma copyRowsLoop_copied (src : Nat → Nat) (sp dp cs : Nat) (hcs : cs ≤ dp) (h : Nat) :
    ∀ (r srcOff dstOff : Nat) (dst : Nat → Nat) (j : Nat),
      r < h → j < cs →
      copyRowsLoop src sp dp cs srcOff dstOff dst h (dstOff + r * dp + j) =
        src (srcOff + r * sp + j) := by
  induction h with
  | zero =>
    intro r srcOff dstOff dst j hr _
    exact absurd hr (Nat.not_lt_zero r)
  | succ n ih =>
    intro r srcOff dstOff dst j hr hj
    simp only [copyRowsLoop]
    cases r with
    | zero =>
      simp only [Nat.zero_mul, Nat.add_zero]
      rw [copyRowsLoop_untouched src sp dp cs n (srcOff + sp) (dstOff + dp)
        (memcpyBytes dst dstOff src srcOff cs) (dstOff + j) ?_]
      · simp only [memcpyBytes]
        rw [if_pos ⟨by omega, by omega⟩]
        congr 1
        omega
      · intro r' hr' hcontra
        have hm : r' * dp + dp + dp ≥ dp := by omega
        omega
    | succ r' =>
      have hm : (r' + 1) * dp = r' * dp + dp := Nat.succ_mul r' dp
      have hms : (r' + 1) * sp = r' * sp + sp := Nat.succ_mul r' sp
      have hidx : dstOff + (r' + 1) * dp + j = dstOff + dp + r' * dp + j := by omega
      rw [hidx, ih r' (srcOff + sp) (dstOff + dp) (memcpyBytes dst dstOff src srcOff cs) j
        (by omega) hj]
      congr 1
      omega

/-- Recognises a ring-buffer reservation call in a trace. -/
def isReserveEvt : Event → Bool
  | .reserveMemory _ _ _ => true
  | _ => false

/-- Recognises any staging-primitive call in a trace. -/
def isStagingEvt : Event → Bool
  | .stagingCreate _ => true
  | .stagingWritePixels _ => true
  | .stagingCopyToTexture _ _ _ _ => true
  | .stagingDestroy _ => true
  | _ => false

/-- Recognises a staging-resource creation in a trace. -/
def isStagingCreateEvt : Event → Bool
  | .stagingCreate _ => true
  | _ => false

/-- Recognises a staging-resource destruction in a trace. -/
def isStagingDestroyEvt : Event → Bool
  | .stagingDestroy _ => true
  | _ => false

/-- Recognises a hand-off to the GPU-completion retirement queue. -/
def isDeferEvt : Event → Bool
  | .deferDescriptorDestruction _ _ => true
  | .deferResourceDestruction _ => true
  | _ => false

/-- Recognises a command-list submission in a trace. -/
def isExecEvt : Event → Bool
  | .executeCommandList _ => true
  | _ => false

/-- The descriptors successfully allocated during an operation, read off its
trace. -/
def allocatedDescriptors (evs : List Event) : List (Heap × Nat) :=
  evs.filterMap fun e =>
    match e with
    | .allocDescriptor hp (some i) => some (hp, i)
    | _ => none

/-- The descriptors freed back to their pool during an operation, read off
its trace. -/
def freedDescriptors (evs : List Event) : List (Heap × Nat) :=
  evs.filterMap fun e =>
    match e with
    | .freeDescriptor hp (some i) => some (hp, i)
    | _ => none

/-! ### Claim theorems -/

/-- C5: `TransitionToState(S)` is a no-op (zero barriers, nothing changed)
when the tracked state already equals `S`; otherwise it records exactly one
barrier from the current tracked state to `S` and sets the tracked state to
`S`, so a second consecutive call with the same `S` records zero barriers. -/
theorem transitionToState_spec (tex : Texture) (s : ResourceState) :
    (tex.m_state = s → TransitionToState tex s = (tex, [])) ∧
    (tex.m_state ≠ s →
      (TransitionToState tex s).1 = { tex with m_state := s } ∧
      (TransitionToState tex s).2 = [.barrier tex.m_state s] ∧
      TransitionToState (TransitionToState tex s).1 s = ((TransitionToState tex s).1, [])) := by
  constructor
  · intro h
    simp [TransitionToState, h]
  · intro h
    simp [TransitionToState, h]

/-- Witness for C5 at a concrete texture and state. -/
theorem transitionToState_spec_witness :
    (TransitionToState emptyTexture ResourceState.copyDest).1 =
      { emptyTexture with m_state := ResourceState.copyDest } ∧
    (TransitionToState emptyTexture ResourceState.copyDest).2 =
      [.barrier emptyTexture.m_state ResourceState.copyDest] ∧
    TransitionToState (TransitionToState emptyTexture ResourceState.copyDest).1
      ResourceState.copyDest = ((TransitionToState emptyTexture ResourceState.copyDest).1, []) :=
  (transitionToState_spec emptyTexture ResourceState.copyDest).2 (by decide)

/-- C8: `LoadData` preserves the tracked usage-state: on either sub-path and
whether it succeeds or fails, the tracked state afterwards equals the
tracked state before the call. -/
theorem loadData_preserves_tracked_state (ctx : Ctx) (tex : Texture)
    (x y width height pitch : Nat) :
    (LoadData ctx tex x y width height pitch).2.1.m_state = tex.m_state := by
  rw [loadData_result_texture]

/-- A concrete oracle where every external call succeeds. -/
def ctxAllOk : Ctx :=
  { createResourceResult := some 1
    srvAllocResult := some 2
    rtvAllocResult := some 3
    dsvAllocResult := some 4
    streamBufferSize := 1024
    streamBufferOffset := 0
    reserveFirst := true
    reserveSecond := true
    stagingCreateOk := true
    stagingWriteOk := true }

/-- A concrete oracle where both ring-buffer reservations fail. -/
def ctxNoReserve : Ctx :=
  { createResourceResult := none
    srvAllocResult := none
    rtvAllocResult := none
    dsvAllocResult := none
    streamBufferSize := 1024
    streamBufferOffset := 0
    reserveFirst := false
    reserveSecond := false
    stagingCreateOk := false
    stagingWriteOk := false }

/-- A concrete live texture. -/
def texValid : Texture :=
  { m_resource := some 0
    m_srv_descriptor := some 10
    m_rtv_or_dsv_descriptor := none
    m_width := 16
    m_height := 16
    m_layers := 1
    m_levels := 1
    m_samples := 1
    m_format := .rgba8
    m_state := .pixelShaderResource
    m_is_depth_view := false }

/-- A concrete oracle whose ring buffer has zero capacity, forcing the
Staging sub-path, with both staging steps succeeding. -/
def ctxTiny : Ctx :=
  { createResourceResult := none
    srvAllocResult := none
    rtvAllocResult := none
    dsvAllocResult := none
    streamBufferSize := 0
    streamBufferOffset := 0
    reserveFirst := false
    reserveSecond := false
    stagingCreateOk := true
    stagingWriteOk := true }

/-- A concrete live depth texture (depth-view flag set). -/
def texDepth : Texture :=
  { m_resource := some 0
    m_srv_descriptor := some 10
    m_rtv_or_dsv_descriptor := some 11
    m_width := 16
    m_height := 16
    m_layers := 1
    m_levels := 1
    m_samples := 1
    m_format := .d16
    m_state := .depthWrite
    m_is_depth_view := true }

/-- A concrete oracle where the sampled-view allocation succeeds but the
render-target-view allocation fails. -/
def ctxRTVFail : Ctx :=
  { createResourceResult := some 1
    srvAllocResult := some 2
    rtvAllocResult := none
    dsvAllocResult := none
    streamBufferSize := 1024
    streamBufferOffset := 0
    reserveFirst := true
    reserveSecond := true
    stagingCreateOk := true
    stagingWriteOk := true }

/-- The description read back from a concrete adopted resource. -/
def desc0 : ResourceDesc :=
  { width := 16, height := 16, layers := 1, levels := 1, samples := 1,
    format := .fmtR8G8B8A8 }

/-- Counterexample to C1: a successful staging-path `LoadData` destroys its
staging resource with the deferred variant (`Destroy(true)`, a hand-off to
the GPU-completion retirement queue), not the immediate one. -/
theorem loadData_staging_destroy_cex :
    (LoadData ctxTiny texValid 0 0 1 1 4).1 = true ∧
    (LoadData ctxTiny texValid 0 0 1 1 4).2.2.countP isStagingCreateEvt = 1 ∧
    Event.stagingDestroy true ∈ (LoadData ctxTiny texValid 0 0 1 1 4).2.2 ∧
    Event.stagingDestroy false ∉ (LoadData ctxTiny texValid 0 0 1 1 4).2.2 := by
  decide

/-- C1 (amended): in the Staging sub-path of `LoadData`, every successful
call creates exactly one staging resource and destroys it exactly once,
immediately after the staging-to-texture copy command is recorded, using
the deferred (GPU-completion retirement) variant rather than the immediate
one. -/
theorem loadData_staging_destroy (ctx : Ctx) (tex : Texture) (x y width height pitch : Nat)
    (hroute : ctx.streamBufferSize ≤
      AlignUpPow2 (width * GetPixelSize tex.m_format) PITCH_ALIGNMENT * height % U32M)
    (hok : (LoadData ctx tex x y width height pitch).1 = true) :
    (LoadData ctx tex x y width height pitch).2.2.countP isStagingCreateEvt = 1 ∧
    (LoadData ctx tex x y width height pitch).2.2.countP isStagingDestroyEvt = 1 ∧
    ∃ pre post, (LoadData ctx tex x y width height pitch).2.2 =
      pre ++ [.stagingCopyToTexture x y width height, .stagingDestroy true] ++ post := by
  by_cases hc : ctx.stagingCreateOk
  · by_cases hw : ctx.stagingWriteOk
    · by_cases hs : tex.m_state = ResourceState.copyDest
      · have htr : (LoadData ctx tex x y width height pitch).2.2 =
            [.stagingCreate true, .stagingWritePixels true,
             .stagingCopyToTexture x y width height, .stagingDestroy true] := by
          simp [LoadData, TransitionToState, hroute, hc, hw, hs]
        rw [htr]
        refine ⟨by simp [isStagingCreateEvt], by simp [isStagingDestroyEvt], ?_⟩
        exact ⟨[.stagingCreate true, .stagingWritePixels true], [], rfl⟩
      · have htr : (LoadData ctx tex x y width height pitch).2.2 =
            [.stagingCreate true, .stagingWritePixels true,
             .barrier tex.m_state .copyDest,
             .stagingCopyToTexture x y width height, .stagingDestroy true,
             .barrier .copyDest tex.m_state] := by
          simp [LoadData, TransitionToState, hroute, hc, hw, hs, Ne.symm hs]
        rw [htr]
        refine ⟨by simp [isStagingCreateEvt], by simp [isStagingDestroyEvt], ?_⟩
        exact ⟨[.stagingCreate true, .stagingWritePixels true, .barrier tex.m_state .copyDest],
          [.barrier .copyDest tex.m_state], rfl⟩
    · simp [LoadData, hroute, hc, hw] at hok
  · simp [LoadData, hroute, hc] at hok

/-- Witness for C1 (amended) at the counterexample's concrete input. -/
theorem loadData_staging_destroy_witness :
    (LoadData ctxTiny texValid 0 0 1 1 4).2.2.countP isStagingCreateEvt = 1 ∧
    (LoadData ctxTiny texValid 0 0 1 1 4).2.2.countP isStagingDestroyEvt = 1 ∧
    ∃ pre post, (LoadData ctxTiny texValid 0 0 1 1 4).2.2 =
      pre ++ [.stagingCopyToTexture 0 0 1 1, .stagingDestroy true] ++ post :=
  loadData_staging_destroy ctxTiny texValid 0 0 1 1 4 (by decide) (by decide)

/-- Counterexample to C2: `Adopt` on a live depth texture whose
render-target-view allocation fails returns failure but has already reset
the depth-view flag, mutating an observable field of the live object. -/
theorem adopt_rollback_cex :
    (Adopt ctxRTVFail texDepth 7 desc0 .fmtR8G8B8A8 .fmtR8G8B8A8 .fmtUnknown
      .renderTarget).1 = false ∧
    (Adopt ctxRTVFail texDepth 7 desc0 .fmtR8G8B8A8 .fmtR8G8B8A8 .fmtUnknown
      .renderTarget).2.1.m_is_depth_view ≠ texDepth.m_is_depth_view := by
  decide

/-- C2 (amended): when any descriptor allocation fails, `Adopt` returns
failure, frees every descriptor already allocated within the same call,
and leaves every observable field of the live object unchanged except the
depth-view flag: the flag is untouched when the sampled-view allocation
fails, and is reset to false when the render-target or depth view
allocation fails. -/
theorem adopt_rollback (ctx : Ctx) (tex : Texture) (resId : Nat) (desc : ResourceDesc)
    (sf rf df : DXGIFormat) (st : ResourceState)
    (hfail : (Adopt ctx tex resId desc sf rf df st).1 = false) :
    (∀ p ∈ allocatedDescriptors (Adopt ctx tex resId desc sf rf df st).2.2,
      p ∈ freedDescriptors (Adopt ctx tex resId desc sf rf df st).2.2) ∧
    ((sf ≠ DXGIFormat.fmtUnknown ∧ ctx.srvAllocResult = none) →
      (Adopt ctx tex resId desc sf rf df st).2.1 = tex) ∧
    (¬(sf ≠ DXGIFormat.fmtUnknown ∧ ctx.srvAllocResult = none) →
      (Adopt ctx tex resId desc sf rf df st).2.1 = { tex with m_is_depth_view := false }) := by
  by_cases hsf : sf = DXGIFormat.fmtUnknown
  · by_cases hrf : rf = DXGIFormat.fmtUnknown
    · by_cases hdf : df = DXGIFormat.fmtUnknown
      · simp [Adopt, hsf, hrf, hdf] at hfail
      · cases hdsv : ctx.dsvAllocResult with
        | none =>
          refine ⟨?_, fun hsrvfail => absurd hsf hsrvfail.1, fun _ => ?_⟩ <;>
            simp [Adopt, CreateDSVDescriptor, hsf, hrf, hdf, hdsv,
              allocatedDescriptors, freedDescriptors]
        | some did => simp [Adopt, CreateDSVDescriptor, hsf, hrf, hdf, hdsv] at hfail
    · cases hrtv : ctx.rtvAllocResult with
      | none =>
        refine ⟨?_, fun hsrvfail => absurd hsf hsrvfail.1, fun _ => ?_⟩ <;>
          simp [Adopt, CreateRTVDescriptor, hsf, hrf, hrtv,
            allocatedDescriptors, freedDescriptors]
      | some tid => simp [Adopt, CreateRTVDescriptor, hsf, hrf, hrtv] at hfail
  · cases hsrv : ctx.srvAllocResult with
    | none =>
      refine ⟨?_, fun _ => ?_, fun hn => absurd ⟨hsf, rfl⟩ hn⟩ <;>
        simp [Adopt, CreateSRVDescriptor, hsf, hsrv,
          allocatedDescriptors, freedDescriptors]
    | some sid =>
      by_cases hrf : rf = DXGIFormat.fmtUnknown
      · by_cases hdf : df = DXGIFormat.fmtUnknown
        · simp [Adopt, CreateSRVDescriptor, hsf, hrf, hdf, hsrv] at hfail
        · cases hdsv : ctx.dsvAllocResult with
          | none =>
            refine ⟨?_, fun hsrvfail => by simp [hsrv] at hsrvfail, fun _ => ?_⟩ <;>
              simp [Adopt, CreateSRVDescriptor, CreateDSVDescriptor, hsf, hrf, hdf,
                hsrv, hdsv, allocatedDescriptors, freedDescriptors]
          | some did =>
            simp [Adopt, CreateSRVDescriptor, CreateDSVDescriptor, hsf, hrf, hdf,
              hsrv, hdsv] at hfail
      · cases hrtv : ctx.rtvAllocResult with
        | none =>
          refine ⟨?_, fun hsrvfail => by simp [hsrv] at hsrvfail, fun _ => ?_⟩ <;>
            simp [Adopt, CreateSRVDescriptor, CreateRTVDescriptor, hsf, hrf,
              hsrv, hrtv, allocatedDescriptors, freedDescriptors]
        | some tid =>
          simp [Adopt, CreateSRVDescriptor, CreateRTVDescriptor, hsf, hrf,
            hsrv, hrtv] at hfail

/-- Witness for C2 (amended): the render-target-view failure resets the
depth-view flag (with the sampled-view descriptor rolled back), and a
sampled-view failure leaves the object fully unchanged. -/
theorem adopt_rollback_witness :
    (∀ p ∈ allocatedDescriptors (Adopt ctxRTVFail texDepth 7 desc0 .fmtR8G8B8A8
        .fmtR8G8B8A8 .fmtUnknown .renderTarget).2.2,
      p ∈ freedDescriptors (Adopt ctxRTVFail texDepth 7 desc0 .fmtR8G8B8A8
        .fmtR8G8B8A8 .fmtUnknown .renderTarget).2.2) ∧
    (Adopt ctxRTVFail texDepth 7 desc0 .fmtR8G8B8A8 .fmtR8G8B8A8 .fmtUnknown
      .renderTarget).2.1 = { texDepth with m_is_depth_view := false } ∧
    (Adopt ctxNoReserve texDepth 7 desc0 .fmtR8G8B8A8 .fmtR8G8B8A8 .fmtUnknown
      .renderTarget).2.1 = texDepth :=
  ⟨(adopt_rollback ctxRTVFail texDepth 7 desc0 .fmtR8G8B8A8 .fmtR8G8B8A8 .fmtUnknown
      .renderTarget (by decide)).1,
   (adopt_rollback ctxRTVFail texDepth 7 desc0 .fmtR8G8B8A8 .fmtR8G8B8A8 .fmtUnknown
      .renderTarget (by decide)).2.2 (by decide),
   (adopt_rollback ctxNoReserve texDepth 7 desc0 .fmtR8G8B8A8 .fmtR8G8B8A8 .fmtUnknown
      .renderTarget (by decide)).2.1 (by decide)⟩

/-- C3: `LoadData` computes the destination row stride as the source row
width in bytes rounded up to the pitch alignment and the total size as
stride times height, and routes strictly: total size below the ring
buffer's capacity uses the Streaming sub-path (a reservation is made, no
staging call occurs), total size at or above the capacity uses the Staging
sub-path (exactly one staging resource is created, no reservation
occurs). -/
theorem loadData_routing (ctx : Ctx) (tex : Texture) (x y width height pitch : Nat) :
    (width * GetPixelSize tex.m_format + (PITCH_ALIGNMENT - 1) < U32M →
      AlignUpPow2 (width * GetPixelSize tex.m_format) PITCH_ALIGNMENT % PITCH_ALIGNMENT = 0 ∧
      width * GetPixelSize tex.m_format ≤
        AlignUpPow2 (width * GetPixelSize tex.m_format) PITCH_ALIGNMENT ∧
      AlignUpPow2 (width * GetPixelSize tex.m_format) PITCH_ALIGNMENT <
        width * GetPixelSize tex.m_format + PITCH_ALIGNMENT) ∧
    (AlignUpPow2 (width * GetPixelSize tex.m_format) PITCH_ALIGNMENT * height < U32M →
      AlignUpPow2 (width * GetPixelSize tex.m_format) PITCH_ALIGNMENT * height % U32M =
        AlignUpPow2 (width * GetPixelSize tex.m_format) PITCH_ALIGNMENT * height) ∧
    (AlignUpPow2 (width * GetPixelSize tex.m_format) PITCH_ALIGNMENT * height % U32M <
        ctx.streamBufferSize →
      (LoadData ctx tex x y width height pitch).2.2.countP isStagingEvt = 0 ∧
      1 ≤ (LoadData ctx tex x y width height pitch).2.2.countP isReserveEvt) ∧
    (ctx.streamBufferSize ≤
        AlignUpPow2 (width * GetPixelSize tex.m_format) PITCH_ALIGNMENT * height % U32M →
      (LoadData ctx tex x y width height pitch).2.2.countP isStagingCreateEvt = 1 ∧
      (LoadData ctx tex x y width height pitch).2.2.countP isReserveEvt = 0) := by
  refine ⟨?_, ?_, ?_, ?_⟩
  · intro hv
    simp only [AlignUpPow2, PITCH_ALIGNMENT, U32M] at *
    omega
  · intro h
    exact Nat.mod_eq_of_lt h
  · intro hroute
    have hr' : ¬ (ctx.streamBufferSize ≤
        AlignUpPow2 (width * GetPixelSize tex.m_format) PITCH_ALIGNMENT * height % U32M) :=
      not_le.mpr hroute
    by_cases h1 : ctx.reserveFirst
    · by_cases hs : tex.m_state = ResourceState.copyDest
      · simp [LoadData, BeginStreamUpdate, EndStreamUpdate, CopyFromBuffer,
          TransitionToState, hr', h1, hs, isReserveEvt, isStagingEvt]
      · simp [LoadData, BeginStreamUpdate, EndStreamUpdate, CopyFromBuffer,
          TransitionToState, hr', h1, hs, Ne.symm hs, isReserveEvt, isStagingEvt]
    · by_cases h2 : ctx.reserveSecond
      · by_cases hs : tex.m_state = ResourceState.copyDest
        · simp [LoadData, BeginStreamUpdate, EndStreamUpdate, CopyFromBuffer,
            TransitionToState, hr', h1, h2, hs, isReserveEvt, isStagingEvt]
        · simp [LoadData, BeginStreamUpdate, EndStreamUpdate, CopyFromBuffer,
            TransitionToState, hr', h1, h2, hs, Ne.symm hs, isReserveEvt, isStagingEvt]
      · simp [LoadData, BeginStreamUpdate, hr', h1, h2, isReserveEvt, isStagingEvt]
  · intro hroute
    by_cases hc : ctx.stagingCreateOk
    · by_cases hw : ctx.stagingWriteOk
      · by_cases hs : tex.m_state = ResourceState.copyDest
        · simp [LoadData, TransitionToState, hroute, hc, hw, hs, isStagingCreateEvt,
            isReserveEvt]
        · simp [LoadData, TransitionToState, hroute, hc, hw, hs, Ne.symm hs,
            isStagingCreateEvt, isReserveEvt]
      · simp [LoadData, hroute, hc, hw, isStagingCreateEvt, isReserveEvt]
    · simp [LoadData, hroute, hc, isStagingCreateEvt, isReserveEvt]

/-- Witness for C3: a 1×1 RGBA8 upload against a 1KiB ring buffer streams
(no staging call, one reservation). -/
theorem loadData_routing_witness :
    (LoadData ctxAllOk texValid 0 0 1 1 4).2.2.countP isStagingEvt = 0 ∧
    1 ≤ (LoadData ctxAllOk texValid 0 0 1 1 4).2.2.countP isReserveEvt :=
  (loadData_routing ctxAllOk texValid 0 0 1 1 4).2.2.1 (by decide)

/-- C6: in the Streaming sub-path, when the first reservation fails the
command stream is submitted exactly once and the reservation retried
exactly once with the same size and alignment; a second failure fails the
upload call with the texture object unchanged; at most two reservation
attempts are made per call. -/
theorem beginStreamUpdate_retry (ctx : Ctx) (tex : Texture) (x y width height pitch : Nat) :
    (ctx.reserveFirst = true →
      BeginStreamUpdate ctx tex x y width height =
        (true, AlignUpPow2 (width * GetPixelSize tex.m_format) PITCH_ALIGNMENT,
         [.reserveMemory
            (AlignUpPow2 (width * GetPixelSize tex.m_format) PITCH_ALIGNMENT * height % U32M)
            PLACEMENT_ALIGNMENT true])) ∧
    (ctx.reserveFirst = false → ctx.reserveSecond = true →
      BeginStreamUpdate ctx tex x y width height =
        (true, AlignUpPow2 (width * GetPixelSize tex.m_format) PITCH_ALIGNMENT,
         [.reserveMemory
            (AlignUpPow2 (width * GetPixelSize tex.m_format) PITCH_ALIGNMENT * height % U32M)
            PLACEMENT_ALIGNMENT false,
          .executeCommandList false,
          .reserveMemory
            (AlignUpPow2 (width * GetPixelSize tex.m_format) PITCH_ALIGNMENT * height % U32M)
            PLACEMENT_ALIGNMENT true])) ∧
    (ctx.reserveFirst = false → ctx.reserveSecond = false →
      BeginStreamUpdate ctx tex x y width height =
        (false, AlignUpPow2 (width * GetPixelSize tex.m_format) PITCH_ALIGNMENT,
         [.reserveMemory
            (AlignUpPow2 (width * GetPixelSize tex.m_format) PITCH_ALIGNMENT * height % U32M)
            PLACEMENT_ALIGNMENT false,
          .executeCommandList false,
          .reserveMemory
            (AlignUpPow2 (width * GetPixelSize tex.m_format) PITCH_ALIGNMENT * height % U32M)
            PLACEMENT_ALIGNMENT false])) ∧
    (BeginStreamUpdate ctx tex x y width height).2.2.countP isReserveEvt ≤ 2 ∧
    ((BeginStreamUpdate ctx tex x y width height).1 = false →
      AlignUpPow2 (width * GetPixelSize tex.m_format) PITCH_ALIGNMENT * height % U32M <
        ctx.streamBufferSize →
      LoadData ctx tex x y width height pitch =
        (false, tex, (BeginStreamUpdate ctx tex x y width height).2.2)) := by
  refine ⟨?_, ?_, ?_, ?_, ?_⟩
  · intro h1
    simp [BeginStreamUpdate, h1]
  · intro h1 h2
    simp [BeginStreamUpdate, h1, h2]
  · intro h1 h2
    simp [BeginStreamUpdate, h1, h2]
  · by_cases h1 : ctx.reserveFirst
    · simp [BeginStreamUpdate, h1, isReserveEvt]
    · by_cases h2 : ctx.reserveSecond
      · simp [BeginStreamUpdate, h1, h2, isReserveEvt]
      · simp [BeginStreamUpdate, h1, h2, isReserveEvt]
  · intro hfail hroute
    have hr' : ¬ (ctx.streamBufferSize ≤
        AlignUpPow2 (width * GetPixelSize tex.m_format) PITCH_ALIGNMENT * height % U32M) :=
      not_le.mpr hroute
    by_cases h1 : ctx.reserveFirst
    · simp [BeginStreamUpdate, h1] at hfail
    · by_cases h2 : ctx.reserveSecond
      · simp [BeginStreamUpdate, h1, h2] at hfail
      · simp [LoadData, BeginStreamUpdate, hr', h1, h2]

/-- Witness for C6: both reservations fail for a 1×1 upload; the trace shows
two same-sized reservation attempts around one submission and the call
fails with the texture unchanged. -/
theorem beginStreamUpdate_retry_witness :
    BeginStreamUpdate ctxNoReserve texValid 0 0 1 1 =
      (false, 256,
       [.reserveMemory 256 PLACEMENT_ALIGNMENT false, .executeCommandList false,
        .reserveMemory 256 PLACEMENT_ALIGNMENT false]) ∧
    LoadData ctxNoReserve texValid 0 0 1 1 4 =
      (false, texValid, (BeginStreamUpdate ctxNoReserve texValid 0 0 1 1).2.2) :=
  ⟨(beginStreamUpdate_retry ctxNoReserve texValid 0 0 1 1 4).2.2.1 rfl rfl,
   (beginStreamUpdate_retry ctxNoReserve texValid 0 0 1 1 4).2.2.2.2 (by decide) (by decide)⟩

/-- C4: `Create` is atomic on failure: out-of-bounds dimensions are rejected
before any allocation attempt (empty trace); on any failure the object is
unchanged, every descriptor allocated within the call has been freed back
to its pool, and nothing was handed to the deferred-destruction queue; the
old contents are deferred-destroyed only on success. -/
theorem create_atomicity (ctx : Ctx) (tex : Texture) (w h l lv s : Nat)
    (f sf rf df : DXGIFormat) :
    ((w > MAX_WIDTH ∨ h > MAX_HEIGHT ∨ l > MAX_LAYERS ∨ lv > MAX_LEVELS ∨ s > MAX_SAMPLES) →
      Create ctx tex w h l lv s f sf rf df = (false, tex, [])) ∧
    ((Create ctx tex w h l lv s f sf rf df).1 = false →
      (Create ctx tex w h l lv s f sf rf df).2.1 = tex ∧
      (∀ p ∈ allocatedDescriptors (Create ctx tex w h l lv s f sf rf df).2.2,
        p ∈ freedDescriptors (Create ctx tex w h l lv s f sf rf df).2.2) ∧
      (Create ctx tex w h l lv s f sf rf df).2.2.countP isDeferEvt = 0) ∧
    ((Create ctx tex w h l lv s f sf rf df).1 = true →
      Event.deferResourceDestruction tex.m_resource ∈
        (Create ctx tex w h l lv s f sf rf df).2.2 ∧
      Event.deferDescriptorDestruction .srvHeap tex.m_srv_descriptor ∈
        (Create ctx tex w h l lv s f sf rf df).2.2 ∧
      Event.deferDescriptorDestruction (if tex.m_is_depth_view then .dsvHeap else .rtvHeap)
        tex.m_rtv_or_dsv_descriptor ∈ (Create ctx tex w h l lv s f sf rf df).2.2) := by
  refine ⟨?_, ?_, ?_⟩
  · intro hdim
    simp [Create, hdim]
  · intro hres
    by_cases hdim : (w > MAX_WIDTH ∨ h > MAX_HEIGHT ∨ l > MAX_LAYERS ∨ lv > MAX_LEVELS ∨
        s > MAX_SAMPLES)
    · simp [Create, hdim, allocatedDescriptors, freedDescriptors, isDeferEvt]
    · cases hcres : ctx.createResourceResult with
      | none => simp [Create, hdim, hcres, allocatedDescriptors, freedDescriptors, isDeferEvt]
      | some rid =>
        by_cases hsf : sf = DXGIFormat.fmtUnknown
        · by_cases hrf : rf = DXGIFormat.fmtUnknown
          · by_cases hdf : df = DXGIFormat.fmtUnknown
            · simp [Create, hdim, hcres, hsf, hrf, hdf] at hres
            · cases hdsv : ctx.dsvAllocResult with
              | none =>
                simp [Create, CreateDSVDescriptor, hdim, hcres, hsf, hrf, hdf, hdsv,
                  allocatedDescriptors, freedDescriptors, isDeferEvt]
              | some did =>
                simp [Create, CreateDSVDescriptor, hdim, hcres, hsf, hrf, hdf, hdsv] at hres
          · cases hrtv : ctx.rtvAllocResult with
            | none =>
              simp [Create, CreateRTVDescriptor, hdim, hcres, hsf, hrf, hrtv,
                allocatedDescriptors, freedDescriptors, isDeferEvt]
            | some tid =>
              simp [Create, CreateRTVDescriptor, hdim, hcres, hsf, hrf, hrtv] at hres
        · cases hsrv : ctx.srvAllocResult with
          | none =>
            simp [Create, CreateSRVDescriptor, hdim, hcres, hsf, hsrv,
              allocatedDescriptors, freedDescriptors, isDeferEvt]
          | some sid =>
            by_cases hrf : rf = DXGIFormat.fmtUnknown
            · by_cases hdf : df = DXGIFormat.fmtUnknown
              · simp [Create, CreateSRVDescriptor, hdim, hcres, hsf, hrf, hdf, hsrv] at hres
              · cases hdsv : ctx.dsvAllocResult with
                | none =>
                  simp [Create, CreateSRVDescriptor, CreateDSVDescriptor, hdim, hcres,
                    hsf, hrf, hdf, hsrv, hdsv, allocatedDescriptors, freedDescriptors,
                    isDeferEvt]
                | some did =>
                  simp [Create, CreateSRVDescriptor, CreateDSVDescriptor, hdim, hcres,
                    hsf, hrf, hdf, hsrv, hdsv] at hres
            · cases hrtv : ctx.rtvAllocResult with
              | none =>
                simp [Create, CreateSRVDescriptor, CreateRTVDescriptor, hdim, hcres,
                  hsf, hrf, hsrv, hrtv, allocatedDescriptors, freedDescriptors, isDeferEvt]
              | some tid =>
                simp [Create, CreateSRVDescriptor, CreateRTVDescriptor, hdim, hcres,
                  hsf, hrf, hsrv, hrtv] at hres
  · intro hres
    by_cases hdim : (w > MAX_WIDTH ∨ h > MAX_HEIGHT ∨ l > MAX_LAYERS ∨ lv > MAX_LEVELS ∨
        s > MAX_SAMPLES)
    · simp [Create, hdim] at hres
    · cases hcres : ctx.createResourceResult with
      | none => simp [Create, hdim, hcres] at hres
      | some rid =>
        by_cases hsf : sf = DXGIFormat.fmtUnknown
        · by_cases hrf : rf = DXGIFormat.fmtUnknown
          · by_cases hdf : df = DXGIFormat.fmtUnknown
            · simp [Create, Destroy, hdim, hcres, hsf, hrf, hdf]
            · cases hdsv : ctx.dsvAllocResult with
              | none =>
                simp [Create, CreateDSVDescriptor, hdim, hcres, hsf, hrf, hdf, hdsv] at hres
              | some did =>
                simp [Create, CreateDSVDescriptor, Destroy, hdim, hcres, hsf, hrf, hdf,
                  hdsv]
          · cases hrtv : ctx.rtvAllocResult with
            | none =>
              simp [Create, CreateRTVDescriptor, hdim, hcres, hsf, hrf, hrtv] at hres
            | some tid =>
              simp [Create, CreateRTVDescriptor, Destroy, hdim, hcres, hsf, hrf, hrtv]
        · cases hsrv : ctx.srvAllocResult with
          | none =>
            simp [Create, CreateSRVDescriptor, hdim, hcres, hsf, hsrv] at hres
          | some sid =>
            by_cases hrf : rf = DXGIFormat.fmtUnknown
            · by_cases hdf : df = DXGIFormat.fmtUnknown
              · simp [Create, CreateSRVDescriptor, Destroy, hdim, hcres, hsf, hrf, hdf,
                  hsrv]
              · cases hdsv : ctx.dsvAllocResult with
                | none =>
                  simp [Create, CreateSRVDescriptor, CreateDSVDescriptor, hdim, hcres,
                    hsf, hrf, hdf, hsrv, hdsv] at hres
                | some did =>
                  simp [Create, CreateSRVDescriptor, CreateDSVDescriptor, Destroy, hdim,
                    hcres, hsf, hrf, hdf, hsrv, hdsv]
            · cases hrtv : ctx.rtvAllocResult with
              | none =>
                simp [Create, CreateSRVDescriptor, CreateRTVDescriptor, hdim, hcres,
                  hsf, hrf, hsrv, hrtv] at hres
              | some tid =>
                simp [Create, CreateSRVDescriptor, CreateRTVDescriptor, Destroy, hdim,
                  hcres, hsf, hrf, hsrv, hrtv]

/-- A texture with out-of-range width used to exercise the dimension
check. -/
def ctxCreateOnly : Ctx :=
  { createResourceResult := some 1
    srvAllocResult := some 2
    rtvAllocResult := none
    dsvAllocResult := some 4
    streamBufferSize := 1024
    streamBufferOffset := 0
    reserveFirst := true
    reserveSecond := true
    stagingCreateOk := true
    stagingWriteOk := true }

/-- Witness for C4: an out-of-bounds width is rejected with an empty trace,
and a failing render-target-view allocation rolls the sampled-view
descriptor back with the texture unchanged. -/
theorem create_atomicity_witness :
    Create ctxCreateOnly texValid 65536 16 1 1 1 .fmtR8G8B8A8 .fmtR8G8B8A8 .fmtUnknown
      .fmtUnknown = (false, texValid, []) ∧
    ((Create ctxRTVFail texValid 16 16 1 1 1 .fmtR8G8B8A8 .fmtR8G8B8A8 .fmtR8G8B8A8
        .fmtUnknown).2.1 = texValid ∧
      (∀ p ∈ allocatedDescriptors (Create ctxRTVFail texValid 16 16 1 1 1 .fmtR8G8B8A8
          .fmtR8G8B8A8 .fmtR8G8B8A8 .fmtUnknown).2.2,
        p ∈ freedDescriptors (Create ctxRTVFail texValid 16 16 1 1 1 .fmtR8G8B8A8
          .fmtR8G8B8A8 .fmtR8G8B8A8 .fmtUnknown).2.2) ∧
      (Create ctxRTVFail texValid 16 16 1 1 1 .fmtR8G8B8A8 .fmtR8G8B8A8 .fmtR8G8B8A8
        .fmtUnknown).2.2.countP isDeferEvt = 0) :=
  ⟨(create_atomicity ctxCreateOnly texValid 65536 16 1 1 1 .fmtR8G8B8A8 .fmtR8G8B8A8
      .fmtUnknown .fmtUnknown).1 (by decide),
   (create_atomicity ctxRTVFail texValid 16 16 1 1 1 .fmtR8G8B8A8 .fmtR8G8B8A8
      .fmtR8G8B8A8 .fmtUnknown).2.1 (by decide)⟩

/-- Looking an entry of `s_dxgi_mapping` back up returns its index: the
mapping has no duplicate DXGI formats. -/
lemma lookup_getDXGIFormat (f : Format) : LookupBaseFormat (GetDXGIFormat f) = f := by
  cases f <;> rfl

/-- C9: for in-bounds parameters with all allocations succeeding, `Create`
succeeds, leaves the object valid, stores the requested width, height,
layer, level and sample counts and the base format exactly, and sets the
initial tracked usage-state from the requested auxiliary view:
render-target state for a render-target view, depth-write state for a
depth view, shader-read (pixel-shader-resource) state for neither. -/
theorem create_success_attrs (ctx : Ctx) (tex : Texture) (w h l lv s : Nat) (f : Format)
    (sf rf df : DXGIFormat) (rid sid tid did : Nat)
    (hw : w ≤ MAX_WIDTH) (hh : h ≤ MAX_HEIGHT) (hl : l ≤ MAX_LAYERS)
    (hlv : lv ≤ MAX_LEVELS) (hs : s ≤ MAX_SAMPLES)
    (hcres : ctx.createResourceResult = some rid)
    (hsrv : ctx.srvAllocResult = some sid)
    (hrtv : ctx.rtvAllocResult = some tid)
    (hdsv : ctx.dsvAllocResult = some did) :
    (Create ctx tex w h l lv s (GetDXGIFormat f) sf rf df).1 = true ∧
    IsValid (Create ctx tex w h l lv s (GetDXGIFormat f) sf rf df).2.1 = true ∧
    (Create ctx tex w h l lv s (GetDXGIFormat f) sf rf df).2.1.m_width = w ∧
    (Create ctx tex w h l lv s (GetDXGIFormat f) sf rf df).2.1.m_height = h ∧
    (Create ctx tex w h l lv s (GetDXGIFormat f) sf rf df).2.1.m_layers = l ∧
    (Create ctx tex w h l lv s (GetDXGIFormat f) sf rf df).2.1.m_levels = lv ∧
    (Create ctx tex w h l lv s (GetDXGIFormat f) sf rf df).2.1.m_samples = s ∧
    (Create ctx tex w h l lv s (GetDXGIFormat f) sf rf df).2.1.m_format = f ∧
    (Create ctx tex w h l lv s (GetDXGIFormat f) sf rf df).2.1.m_state =
      (if rf ≠ DXGIFormat.fmtUnknown then ResourceState.renderTarget
       else if df ≠ DXGIFormat.fmtUnknown then ResourceState.depthWrite
       else ResourceState.pixelShaderResource) := by
  have hw' : w ≤ 65535 := hw
  have hh' : h ≤ 65535 := hh
  have hl' : l ≤ 255 := hl
  have hlv' : lv ≤ 255 := hlv
  have hs' : s ≤ 255 := hs
  have hdim : ¬(w > MAX_WIDTH ∨ h > MAX_HEIGHT ∨ l > MAX_LAYERS ∨ lv > MAX_LEVELS ∨
      s > MAX_SAMPLES) := by
    push_neg
    exact ⟨hw, hh, hl, hlv, hs⟩
  by_cases hsf : sf = DXGIFormat.fmtUnknown
  · by_cases hrf : rf = DXGIFormat.fmtUnknown
    · by_cases hdf : df = DXGIFormat.fmtUnknown
      · simp [Create, Destroy, ClearBaseProperties, IsValid, hdim, hcres, hsf, hrf, hdf,
          lookup_getDXGIFormat]
        refine ⟨?_, ?_, ?_, ?_, ?_⟩ <;> omega
      · simp [Create, CreateDSVDescriptor, Destroy, ClearBaseProperties, IsValid, hdim,
          hcres, hsf, hrf, hdf, hdsv, lookup_getDXGIFormat]
        refine ⟨?_, ?_, ?_, ?_, ?_⟩ <;> omega
    · simp [Create, CreateRTVDescriptor, Destroy, ClearBaseProperties, IsValid, hdim,
        hcres, hsf, hrf, hrtv, lookup_getDXGIFormat]
      refine ⟨?_, ?_, ?_, ?_, ?_⟩ <;> omega
  · by_cases hrf : rf = DXGIFormat.fmtUnknown
    · by_cases hdf : df = DXGIFormat.fmtUnknown
      · simp [Create, CreateSRVDescriptor, Destroy, ClearBaseProperties, IsValid, hdim,
          hcres, hsf, hrf, hdf, hsrv, lookup_getDXGIFormat]
        refine ⟨?_, ?_, ?_, ?_, ?_⟩ <;> omega
      · simp [Create, CreateSRVDescriptor, CreateDSVDescriptor, Destroy,
          ClearBaseProperties, IsValid, hdim, hcres, hsf, hrf, hdf, hsrv, hdsv,
          lookup_getDXGIFormat]
        refine ⟨?_, ?_, ?_, ?_, ?_⟩ <;> omega
    · simp [Create, CreateSRVDescriptor, CreateRTVDescriptor, Destroy,
        ClearBaseProperties, IsValid, hdim, hcres, hsf, hrf, hsrv, hrtv,
        lookup_getDXGIFormat]
      refine ⟨?_, ?_, ?_, ?_, ?_⟩ <;> omega

/-- Witness for C9: a 16×16 RGBA8 texture with a sampled view and no
render-target or depth view. -/
theorem create_success_attrs_witness :
    (Create ctxAllOk emptyTexture 16 16 1 1 1 (GetDXGIFormat .rgba8) .fmtR8G8B8A8
      .fmtUnknown .fmtUnknown).1 = true ∧
    IsValid (Create ctxAllOk emptyTexture 16 16 1 1 1 (GetDXGIFormat .rgba8) .fmtR8G8B8A8
      .fmtUnknown .fmtUnknown).2.1 = true ∧
    (Create ctxAllOk emptyTexture 16 16 1 1 1 (GetDXGIFormat .rgba8) .fmtR8G8B8A8
      .fmtUnknown .fmtUnknown).2.1.m_width = 16 ∧
    (Create ctxAllOk emptyTexture 16 16 1 1 1 (GetDXGIFormat .rgba8) .fmtR8G8B8A8
      .fmtUnknown .fmtUnknown).2.1.m_height = 16 ∧
    (Create ctxAllOk emptyTexture 16 16 1 1 1 (GetDXGIFormat .rgba8) .fmtR8G8B8A8
      .fmtUnknown .fmtUnknown).2.1.m_layers = 1 ∧
    (Create ctxAllOk emptyTexture 16 16 1 1 1 (GetDXGIFormat .rgba8) .fmtR8G8B8A8
      .fmtUnknown .fmtUnknown).2.1.m_levels = 1 ∧
    (Create ctxAllOk emptyTexture 16 16 1 1 1 (GetDXGIFormat .rgba8) .fmtR8G8B8A8
      .fmtUnknown .fmtUnknown).2.1.m_samples = 1 ∧
    (Create ctxAllOk emptyTexture 16 16 1 1 1 (GetDXGIFormat .rgba8) .fmtR8G8B8A8
      .fmtUnknown .fmtUnknown).2.1.m_format = Format.rgba8 ∧
    (Create ctxAllOk emptyTexture 16 16 1 1 1 (GetDXGIFormat .rgba8) .fmtR8G8B8A8
      .fmtUnknown .fmtUnknown).2.1.m_state =
      (if (DXGIFormat.fmtUnknown : DXGIFormat) ≠ DXGIFormat.fmtUnknown then
        ResourceState.renderTarget
       else if (DXGIFormat.fmtUnknown : DXGIFormat) ≠ DXGIFormat.fmtUnknown then
        ResourceState.depthWrite
       else ResourceState.pixelShaderResource) :=
  create_success_attrs ctxAllOk emptyTexture 16 16 1 1 1 .rgba8 .fmtR8G8B8A8 .fmtUnknown
    .fmtUnknown 1 2 3 4 (by decide) (by decide) (by decide) (by decide) (by decide) rfl
    rfl rfl rfl

/-- C7: the row-copy rule: with equal pitches the copy is one bulk copy
whose length `pitch × height` is computed in `u32` (so it is
`pitch × height mod 2^32`, and exactly `pitch × height` whenever that
product is representable), leaving the destination byte-identical to the
source over that range and untouched beyond it; with different pitches
exactly `min(src_pitch, dst_pitch)` bytes are copied per row for `height`
rows, each pointer advancing by its own pitch, and every other destination
byte is left untouched. -/
theorem copyToUploadBuffer_spec (src dst : Nat → Nat) (src_pitch dst_pitch height : Nat) :
    (src_pitch = dst_pitch →
      (∀ i, i < dst_pitch * height % U32M →
        CopyToUploadBuffer src src_pitch height dst dst_pitch i = src i) ∧
      (∀ i, dst_pitch * height % U32M ≤ i →
        CopyToUploadBuffer src src_pitch height dst dst_pitch i = dst i) ∧
      (dst_pitch * height < U32M →
        (∀ i, i < dst_pitch * height →
          CopyToUploadBuffer src src_pitch height dst dst_pitch i = src i) ∧
        (∀ i, dst_pitch * height ≤ i →
          CopyToUploadBuffer src src_pitch height dst dst_pitch i = dst i))) ∧
    (src_pitch ≠ dst_pitch →
      (∀ r j, r < height → j < min src_pitch dst_pitch →
        CopyToUploadBuffer src src_pitch height dst dst_pitch (r * dst_pitch + j) =
          src (r * src_pitch + j)) ∧
      (∀ i,
        (∀ r, r < height →
          ¬(r * dst_pitch ≤ i ∧ i < r * dst_pitch + min src_pitch dst_pitch)) →
        CopyToUploadBuffer src src_pitch height dst dst_pitch i = dst i)) := by
  constructor
  · intro he
    unfold CopyToUploadBuffer
    rw [if_pos he]
    have hmain :
        (∀ i, i < dst_pitch * height % U32M →
          memcpyBytes dst 0 src 0 (dst_pitch * height % U32M) i = src i) ∧
        (∀ i, dst_pitch * height % U32M ≤ i →
          memcpyBytes dst 0 src 0 (dst_pitch * height % U32M) i = dst i) := by
      constructor
      · intro i hi
        simp only [memcpyBytes]
        rw [if_pos ⟨Nat.zero_le i, by omega⟩]
        simp
      · intro i hi
        simp only [memcpyBytes]
        rw [if_neg (by omega)]
    refine ⟨hmain.1, hmain.2, fun hlt =>
      ⟨fun i hi => hmain.1 i (by rw [Nat.mod_eq_of_lt hlt]; exact hi),
       fun i hi => hmain.2 i (by rw [Nat.mod_eq_of_lt hlt]; exact hi)⟩⟩
  · intro hne
    unfold CopyToUploadBuffer
    rw [if_neg hne]
    constructor
    · intro r j hr hj
      have h := copyRowsLoop_copied src src_pitch dst_pitch (min src_pitch dst_pitch)
        (Nat.min_le_right _ _) height r 0 0 dst j hr hj
      simpa using h
    · intro i hi
      have h := copyRowsLoop_untouched src src_pitch dst_pitch (min src_pitch dst_pitch)
        height 0 0 dst i (by simpa using hi)
      exact h

/-- Witness for C7: a mismatched-pitch copy at concrete memories, reading a
copied byte and an untouched byte. -/
theorem copyToUploadBuffer_spec_witness :
    CopyToUploadBuffer (fun i => i + 1) 2 2 (fun _ => 0) 3 4 = (fun i => i + 1) 3 ∧
    CopyToUploadBuffer (fun i => i + 1) 2 2 (fun _ => 0) 3 5 = (fun _ => (0 : Nat)) 5 :=
  ⟨((copyToUploadBuffer_spec (fun i => i + 1) (fun _ => 0) 2 3 2).2 (by decide)).1 1 1
      (by decide) (by decide),
   ((copyToUploadBuffer_spec (fun i => i + 1) (fun _ => 0) 2 3 2).2 (by decide)).2 5
      (by decide)⟩

/-- C10: move construction and move assignment both reset the moved-from
object to the canonical empty state and both carry over the resource, the
descriptors, the depth-view flag and the dimension attributes; only move
assignment also copies the source's tracked usage-state, move construction
leaves the new object's tracked state at its default (common) and does not
copy the base-format field. -/
theorem move_semantics_spec (dst src : Texture) :
    (moveConstruct src).2 = emptyTexture ∧
    (moveAssign dst src).2.1 = emptyTexture ∧
    (moveConstruct src).1.m_resource = src.m_resource ∧
    (moveConstruct src).1.m_srv_descriptor = src.m_srv_descriptor ∧
    (moveConstruct src).1.m_rtv_or_dsv_descriptor = src.m_rtv_or_dsv_descriptor ∧
    (moveConstruct src).1.m_is_depth_view = src.m_is_depth_view ∧
    (moveConstruct src).1.m_width = src.m_width ∧
    (moveConstruct src).1.m_height = src.m_height ∧
    (moveConstruct src).1.m_layers = src.m_layers ∧
    (moveConstruct src).1.m_levels = src.m_levels ∧
    (moveConstruct src).1.m_samples = src.m_samples ∧
    (moveAssign dst src).1.m_resource = src.m_resource ∧
    (moveAssign dst src).1.m_srv_descriptor = src.m_srv_descriptor ∧
    (moveAssign dst src).1.m_rtv_or_dsv_descriptor = src.m_rtv_or_dsv_descriptor ∧
    (moveAssign dst src).1.m_is_depth_view = src.m_is_depth_view ∧
    (moveAssign dst src).1.m_width = src.m_width ∧
    (moveAssign dst src).1.m_height = src.m_height ∧
    (moveAssign dst src).1.m_layers = src.m_layers ∧
    (moveAssign dst src).1.m_levels = src.m_levels ∧
    (moveAssign dst src).1.m_samples = src.m_samples ∧
    (moveAssign dst src).1.m_state = src.m_state ∧
    (moveConstruct src).1.m_state = ResourceState.common ∧
    (moveConstruct src).1.m_format = Format.unknown :=
  ⟨rfl, rfl, rfl, rfl, rfl, rfl, rfl, rfl, rfl, rfl, rfl, rfl, rfl, rfl, rfl, rfl, rfl,
   rfl, rfl, rfl, rfl, rfl, rfl⟩

end D3D12
